import Mathlib

/-!
Verification of the felix research-orchestration pipeline: a shallow
embedding of the repair loop (`python_analysis.execute_python_code`),
the sandboxed executor (`CodeExecutorService`), the pattern/LLM code
fixers (`CodeFixerService`), the query dispatcher and synthesizer
(`DeepResearchService`), the job cancellation endpoint
(`deep_research.cancel_job`), and the Celery worker task
(`research_tasks.run_deep_research`), together with theorems settling
the specification claims about them.
-/

namespace Felix

/-! ## Repair loop (python_analysis.py, `execute_python_code`) -/

/-- Execution status strings returned by `CodeExecutorService.execute_python`:
`SUCCESS`, `FAILED`, or `TIMEOUT`. -/
inductive ExecStatus
  | SUCCESS
  | FAILED
  | TIMEOUT
deriving DecidableEq, Repr

/-- The slice of an `execute_python` result dict that the retry loop reads:
`status`, `error` (the empty string models a falsy/absent error), and
`error_trace`. -/
structure ExecResult where
  status : ExecStatus
  error : String
  errorTrace : Option String
deriving DecidableEq, Repr

/-- Trace of one run of the retry loop: the codes executed with their
results (in order), and how many times each fixer was invoked. -/
structure LoopTrace where
  execs : List (String × ExecResult)
  patternCalls : Nat
  llmCalls : Nat
deriving DecidableEq, Repr

/-- One fixing step of the loop body (python_analysis.py lines 185-195):
`fixer.attempt_fix` is tried first; if it returns nothing or returns the
current code unchanged, `fixer.attempt_fix_with_llm` is consulted.
Returns the chosen fix together with the number of pattern-fixer and
LLM-fixer invocations (always one pattern call; one LLM call only on
fallback). -/
def chooseFix (pfix lfix : String → String → Option String)
    (code err : String) : Option String × Nat × Nat :=
  match pfix code err with
  | none => (lfix code err, 1, 1)
  | some f => if f = code then (lfix code err, 1, 1) else (some f, 1, 0)

/-- The body of the `for attempt in range(max_retries + 1)` loop of
`execute_python_code`, written as structural recursion on the remaining
iteration count (`fuel`).  `execFn i c` is the outcome
`executor.execute_python` produces when code `c` is run as attempt `i`;
`pfix`/`lfix` are the two fixers.  Mirrors the source control flow:
break on `SUCCESS`; when retries remain and the error message is truthy,
fix and `continue` if the fix differs from the current code, else break;
when the error message is falsy the loop falls through to the next
iteration with the same code. -/
def repairAux (execFn : Nat → String → ExecResult)
    (pfix lfix : String → String → Option String)
    (maxRetries : Nat) : Nat → Nat → String → LoopTrace
  | 0, _, _ => { execs := [], patternCalls := 0, llmCalls := 0 }
  | fuel + 1, attempt, code =>
    let r := execFn attempt code
    if r.status = ExecStatus.SUCCESS then
      { execs := [(code, r)], patternCalls := 0, llmCalls := 0 }
    else if attempt < maxRetries ∧ r.error ≠ "" then
      let step := chooseFix pfix lfix code r.error
      match step.1 with
      | some f =>
        if f = code then
          { execs := [(code, r)], patternCalls := step.2.1, llmCalls := step.2.2 }
        else
          let rest := repairAux execFn pfix lfix maxRetries fuel (attempt + 1) f
          { execs := (code, r) :: rest.execs,
            patternCalls := step.2.1 + rest.patternCalls,
            llmCalls := step.2.2 + rest.llmCalls }
      | none =>
        { execs := [(code, r)], patternCalls := step.2.1, llmCalls := step.2.2 }
    else
      let rest := repairAux execFn pfix lfix maxRetries fuel (attempt + 1) code
      { execs := (code, r) :: rest.execs,
        patternCalls := rest.patternCalls,
        llmCalls := rest.llmCalls }

/-- The whole retry loop of `execute_python_code` with `max_retries = 2`
kept as a parameter: `range(max_retries + 1)` supplies `maxRetries + 1`
iterations starting at attempt `0`. -/
def repairLoop (execFn : Nat → String → ExecResult)
    (pfix lfix : String → String → Option String)
    (maxRetries : Nat) (code : String) : LoopTrace :=
  repairAux execFn pfix lfix maxRetries (maxRetries + 1) 0 code

/-- The loop executes at most `fuel` times. -/
theorem repairAux_execs_length_le (execFn : Nat → String → ExecResult)
    (pfix lfix : String → String → Option String) (maxRetries : Nat) :
    ∀ (fuel attempt : Nat) (code : String),
      (repairAux execFn pfix lfix maxRetries fuel attempt code).execs.length ≤ fuel := by
  intro fuel
  induction fuel with
  | zero => intro attempt code; simp [repairAux]
  | succ n ih =>
    intro attempt code
    simp only [repairAux]
    split
    · simp
    · split
      · cases h : (chooseFix pfix lfix code (execFn attempt code).error).1 with
        | some f =>
          simp only [h]
          split
          · simp
          · simpa using Nat.succ_le_succ (ih (attempt + 1) f)
        | none => simp [h]
      · simpa using Nat.succ_le_succ (ih (attempt + 1) code)

/-- Every execution in the trace except the last has a non-`SUCCESS`
status: the loop stops at the first success. -/
theorem repairAux_stops_on_success (execFn : Nat → String → ExecResult)
    (pfix lfix : String → String → Option String) (maxRetries : Nat) :
    ∀ (fuel attempt : Nat) (code : String) (i : Nat) (e : String × ExecResult),
      i + 1 < (repairAux execFn pfix lfix maxRetries fuel attempt code).execs.length →
      (repairAux execFn pfix lfix maxRetries fuel attempt code).execs.get? i = some e →
      e.2.status ≠ ExecStatus.SUCCESS := by
  intro fuel
  induction fuel with
  | zero => intro attempt code i e h _; simp [repairAux] at h
  | succ n ih =>
    intro attempt code i e hlen hget
    simp only [repairAux] at hlen hget
    by_cases hs : (execFn attempt code).status = ExecStatus.SUCCESS
    · rw [if_pos hs] at hlen
      simp at hlen
    · rw [if_neg hs] at hlen hget
      by_cases hcond : attempt < maxRetries ∧ (execFn attempt code).error ≠ ""
      · rw [if_pos hcond] at hlen hget
        cases hstep : (chooseFix pfix lfix code (execFn attempt code).error).1 with
        | none =>
          rw [hstep] at hlen
          simp at hlen
        | some f =>
          rw [hstep] at hlen hget
          dsimp only at hlen hget
          by_cases hfe : f = code
          · rw [if_pos hfe] at hlen
            simp at hlen
          · rw [if_neg hfe] at hlen hget
            cases i with
            | zero =>
              rw [List.get?_cons_zero] at hget
              injection hget with h
              rw [← h]
              simpa using hs
            | succ j =>
              rw [List.get?_cons_succ] at hget
              rw [List.length_cons] at hlen
              exact ih (attempt + 1) f j e (by omega) hget
      · rw [if_neg hcond] at hlen hget
        cases i with
        | zero =>
          rw [List.get?_cons_zero] at hget
          injection hget with h
          rw [← h]
          simpa using hs
        | succ j =>
          rw [List.get?_cons_succ] at hget
          rw [List.length_cons] at hlen
          exact ih (attempt + 1) code j e (by omega) hget

/-- Executor stub for analysis: every attempt fails with an empty error
message (e.g. Python `raise ValueError()` stringifies to `""`, which is
falsy in the loop's `exec_result.get('error')` guard). -/
def emptyErrExec : Nat → String → ExecResult :=
  fun _ _ => { status := ExecStatus.FAILED, error := "", errorTrace := none }

/-- Executor stub for analysis: every attempt fails with a non-empty
error message. -/
def failExec : Nat → String → ExecResult :=
  fun _ _ => { status := ExecStatus.FAILED, error := "boom", errorTrace := none }

/-- Fixer stub that never proposes a fix. -/
def noFix : String → String → Option String := fun _ _ => none

/-- First unfolding of the retry loop when attempt 0 fails with a truthy
error message: the loop consults `chooseFix` and either stops (no new
code) or recurses on the fixed code. -/
theorem repairLoop_step (execFn : Nat → String → ExecResult)
    (pfix lfix : String → String → Option String) (code : String)
    (h1 : (execFn 0 code).status ≠ ExecStatus.SUCCESS)
    (h2 : (execFn 0 code).error ≠ "") :
    repairLoop execFn pfix lfix 2 code =
      (let r := execFn 0 code
      let step := chooseFix pfix lfix code r.error
      match step.1 with
      | some f =>
        if f = code then
          { execs := [(code, r)], patternCalls := step.2.1, llmCalls := step.2.2 }
        else
          let rest := repairAux execFn pfix lfix 2 2 1 f
          { execs := (code, r) :: rest.execs,
            patternCalls := step.2.1 + rest.patternCalls,
            llmCalls := step.2.2 + rest.llmCalls }
      | none =>
        { execs := [(code, r)], patternCalls := step.2.1, llmCalls := step.2.2 }) := by
  show repairAux execFn pfix lfix 2 3 0 code = _
  rw [repairAux, if_neg h1, if_pos ⟨by omega, h2⟩]

/-- Every invocation of the loop's fixing step makes exactly one
pattern-fixer call. -/
theorem chooseFix_pattern_called (pfix lfix : String → String → Option String)
    (code err : String) : (chooseFix pfix lfix code err).2.1 = 1 := by
  unfold chooseFix
  cases pfix code err with
  | none => rfl
  | some f =>
    dsimp only
    by_cases h : f = code
    · rw [if_pos h]
    · rw [if_neg h]

/-- C1: for every generated-code sub-question, the retry loop of
`execute_python_code` runs the code at most `max_retries + 1 = 3` times
(the `range(max_retries + 1)` bound) and stops at the first execution
whose status is `SUCCESS`: every executed attempt except possibly the
last one is a non-success. -/
theorem C1_repair_loop_bounded (execFn : Nat → String → ExecResult)
    (pfix lfix : String → String → Option String) (code : String) :
    (repairLoop execFn pfix lfix 2 code).execs.length ≤ 3 ∧
    (∀ i e, i + 1 < (repairLoop execFn pfix lfix 2 code).execs.length →
      (repairLoop execFn pfix lfix 2 code).execs.get? i = some e →
      e.2.status ≠ ExecStatus.SUCCESS) := by
  constructor
  · exact repairAux_execs_length_le execFn pfix lfix 2 3 0 code
  · intro i e h1 h2
    exact repairAux_stops_on_success execFn pfix lfix 2 3 0 code i e h1 h2

/-- Witness for C1 at a concrete environment. -/
theorem C1_repair_loop_bounded_witness :
    (repairLoop failExec noFix noFix 2 "x").execs.length ≤ 3 :=
  (C1_repair_loop_bounded failExec noFix noFix "x").1

/-- C4 counterexample: when an attempt fails with an empty (falsy) error
message, the loop neither invokes any fixer nor stops — it re-executes
the identical code until the attempts are exhausted.  Here the first
attempt fails with retries remaining, yet the pattern fixer is called
zero times and the loop performs three executions of unchanged code. -/
theorem C4_counterexample :
    (repairLoop emptyErrExec noFix noFix 2 "c").execs.length = 3 ∧
    (repairLoop emptyErrExec noFix noFix 2 "c").patternCalls = 0 ∧
    (repairLoop emptyErrExec noFix noFix 2 "c").llmCalls = 0 ∧
    (repairLoop emptyErrExec noFix noFix 2 "c").execs.get? 0 =
      some ("c", { status := ExecStatus.FAILED, error := "", errorTrace := none }) := by
  refine ⟨rfl, rfl, rfl, rfl⟩

/-- C4 (amended): on a failed or timed-out attempt with retries remaining
whose error message is non-empty, the loop applies the pattern fixer
first; the LLM fixer is consulted exactly when the pattern fixer returns
nothing or returns the current code unchanged; and when the chosen fix is
missing or identical to the current code, the loop stops after the single
execution. -/
theorem C4_pattern_first_llm_fallback (execFn : Nat → String → ExecResult)
    (pfix lfix : String → String → Option String) (code : String)
    (h1 : (execFn 0 code).status ≠ ExecStatus.SUCCESS)
    (h2 : (execFn 0 code).error ≠ "") :
    (∀ f, pfix code (execFn 0 code).error = some f → f ≠ code →
      chooseFix pfix lfix code (execFn 0 code).error = (some f, 1, 0)) ∧
    ((pfix code (execFn 0 code).error = none ∨
        pfix code (execFn 0 code).error = some code) →
      chooseFix pfix lfix code (execFn 0 code).error =
        (lfix code (execFn 0 code).error, 1, 1)) ∧
    (((chooseFix pfix lfix code (execFn 0 code).error).1 = none ∨
        (chooseFix pfix lfix code (execFn 0 code).error).1 = some code) →
      (repairLoop execFn pfix lfix 2 code).execs.length = 1) ∧
    1 ≤ (repairLoop execFn pfix lfix 2 code).patternCalls := by
  refine ⟨?_, ?_, ?_, ?_⟩
  · intro f hf hne
    unfold chooseFix
    rw [hf]
    dsimp only
    rw [if_neg hne]
  · intro h
    unfold chooseFix
    rcases h with h | h
    · rw [h]
    · rw [h]
      dsimp only
      rw [if_pos rfl]
  · intro h
    rw [repairLoop_step execFn pfix lfix code h1 h2]
    dsimp only
    rcases h with h | h
    · rw [h]
      rfl
    · rw [h]
      dsimp only
      rw [if_pos rfl]
      rfl
  · rw [repairLoop_step execFn pfix lfix code h1 h2]
    dsimp only
    have hp := chooseFix_pattern_called pfix lfix code (execFn 0 code).error
    cases hstep : (chooseFix pfix lfix code (execFn 0 code).error).1 with
    | none => simp [hstep, hp]
    | some f =>
      by_cases hfe : f = code
      · simp [hstep, hfe, hp]
      · simp [hstep, hfe, hp]

/-- Witness for the amended C4 at a concrete environment: the first
attempt fails with a non-empty error and no fixer proposes new code, so
the loop stops after one execution. -/
theorem C4_pattern_first_llm_fallback_witness :
    (failExec 0 "x").status ≠ ExecStatus.SUCCESS ∧
    (failExec 0 "x").error ≠ "" ∧
    (repairLoop failExec noFix noFix 2 "x").execs.length = 1 := by
  refine ⟨by decide, by decide, ?_⟩
  exact (C4_pattern_first_llm_fallback failExec noFix noFix "x" (by decide)
    (by decide)).2.2.1 (Or.inl rfl)

/-! ## Sandbox capability surface (code_executor_service.py) -/

/-- The exact `safe_builtins` allow-list of `execute_python`
(code_executor_service.py lines 180-203), in source order. -/
def safe_builtins : List String :=
  ["abs", "all", "any", "ascii",
   "bin", "bool", "bytearray",
   "bytes", "chr", "complex",
   "dict", "divmod", "enumerate",
   "filter", "float", "format",
   "frozenset", "hash", "hex",
   "int", "isinstance", "issubclass",
   "iter", "len", "list", "map",
   "max", "min", "next", "object",
   "oct", "ord", "pow", "print",
   "range", "repr", "reversed",
   "round", "set", "slice", "sorted",
   "str", "sum", "tuple", "type",
   "zip", "True", "False", "None",
   "__import__",
   "ImportError", "NameError", "Exception", "ValueError", "KeyError",
   "TypeError", "AttributeError"]

/-- The names bound in `exec_globals` (code_executor_service.py lines
236-256): the restricted builtins plus the pre-bound library handles,
the dataset bindings, and the three output slots. -/
def exec_globals_names : List String :=
  ["__builtins__", "pd", "np", "sklearn", "scipy", "statsmodels",
   "plt", "sns", "xgboost", "xgb", "lightgbm", "lgb",
   "duckdb", "duckdb_conn", "parquet_path", "df",
   "result", "model", "plot_base64"]

/-- Modelled Python semantics: the `__import__` builtin loads an
arbitrary module by name, so a sandbox that exposes it exposes the
filesystem (`os`), process (`subprocess`), and network (`socket`)
modules to the executed code. -/
def grantsDynamicImport (name : String) : Bool := name = "__import__"

/-- The `allowed_modules` set of `validate_imports`
(code_executor_service.py lines 393-397). -/
def allowed_modules : List String :=
  ["pandas", "numpy", "sklearn", "scipy", "statsmodels",
   "matplotlib", "seaborn", "datetime", "json", "math",
   "collections", "itertools", "re"]

/-- Helper for splitting at separator characters, carrying the piece
accumulated so far (character-level model of Python `str.split(sep)`). -/
def splitByAux (p : Char → Bool) : List Char → List Char → List (List Char)
  | [], acc => [acc.reverse]
  | c :: cs, acc =>
    if p c then acc.reverse :: splitByAux p cs []
    else splitByAux p cs (c :: acc)

/-- Split a character list at every character satisfying `p`. -/
def splitBy (p : Char → Bool) (cs : List Char) : List (List Char) :=
  splitByAux p cs []

/-- Python `str.strip()`: drop leading and trailing whitespace. -/
def pyStrip (cs : List Char) : List Char :=
  ((cs.dropWhile Char.isWhitespace).reverse.dropWhile Char.isWhitespace).reverse

/-- Python `str.split()` with no argument: split on whitespace and drop
the empty pieces. -/
def pySplitWs (cs : List Char) : List (List Char) :=
  (splitBy (fun c => c.isWhitespace) cs).filter (fun w => ¬ w.isEmpty)

/-- Python `str.startswith(pat)` on character lists. -/
def startsWithCl : List Char → List Char → Bool
  | _, [] => true
  | [], _ :: _ => false
  | c :: cs, p :: ps => c = p && startsWithCl cs ps

/-- The import-statement lines `validate_imports` scans: each line of
the code, stripped, kept when it starts with `import ` or `from `
(code_executor_service.py lines 400-403). -/
def importLines (code : String) : List (List Char) :=
  ((splitBy (fun c => c = '\n') code.toList).map pyStrip).filter
    (fun l => startsWithCl l "import ".toList || startsWithCl l "from ".toList)

/-- Module-name extraction of `validate_imports` (lines 407-413): the
second whitespace-separated token of the line, truncated at the first
dot. -/
def moduleOf (line : List Char) : Option (List Char) :=
  match (pySplitWs line).get? 1 with
  | none => none
  | some w => some ((splitBy (fun c => c = '.') w).headD w)

/-- The `forbidden_imports` list of `validate_imports`: statically
imported modules that are outside `allowed_modules`. -/
def forbiddenImports (code : String) : List String :=
  (((importLines code).filterMap moduleOf).map
      (fun cs => (⟨cs⟩ : String))).filter
    (fun m => ¬ allowed_modules.contains m)

/-- The `valid` flag returned by `validate_imports`. -/
def validate_imports (code : String) : Bool :=
  (forbiddenImports code).isEmpty

/-- A generated-code block that touches the filesystem purely through
the `__import__` builtin, with no `import`/`from` statement line. -/
def dynamicImportCode : String :=
  "result = __import__(\"os\").listdir(\"/\")"

/-- C2 counterexample: the fixed builtin allow-list of the sandbox
contains `__import__`, which grants dynamic module import — so
filesystem, process, and network access are exposed to the generated
code, contradicting the claim. -/
theorem C2_counterexample :
    "__import__" ∈ safe_builtins ∧ grantsDynamicImport "__import__" = true := by
  constructor
  · decide
  · rfl

/-- C2 (amended): the execution globals bind exactly the fixed builtin
allow-list plus the pre-bound handles, and the allow-list omits direct
escape hatches such as `open`, `exec`, `eval` and `getattr`; but it does
include `__import__`, so generated code can load arbitrary modules (such
as `os`, which is outside `allowed_modules`) — and the static import
validator accepts such code because it only scans `import`/`from`
statement lines. -/
theorem C2_sandbox_amended :
    "open" ∉ safe_builtins ∧
    "exec" ∉ safe_builtins ∧
    "eval" ∉ safe_builtins ∧
    "getattr" ∉ safe_builtins ∧
    "__import__" ∈ safe_builtins ∧
    "os" ∉ allowed_modules ∧
    "subprocess" ∉ allowed_modules ∧
    "os" ∉ exec_globals_names ∧
    importLines dynamicImportCode = [] ∧
    validate_imports dynamicImportCode = true := by
  refine ⟨by decide, by decide, by decide, by decide, by decide, by decide,
    by decide, by decide, by decide, by decide⟩

/-! ## Python value model and `make_json_serializable`
(code_executor_service.py lines 352-388) -/

/-- A Python float, abstracting the numeric payload: either NaN or some
exact value.  (NaN is the JSON-round-trip-relevant distinction: Python
`json` emits `NaN`, and `nan != nan` after parsing.) -/
inductive PyFloat
  | nan
  | val (q : Int)
deriving DecidableEq, Repr

/-- The Python runtime values `make_json_serializable` dispatches on:
JSON primitives, lists, tuples, dicts, numpy scalars (`np.integer`,
`np.floating`), `np.ndarray`, `pd.DataFrame` (modelled by its records
after `reset_index`), `pd.Series`, and a catch-all object carrying its
`str()` rendering. -/
inductive PyVal
  | pnone
  | pbool (b : Bool)
  | pint (n : Int)
  | pfloat (f : PyFloat)
  | pstr (s : String)
  | plist (xs : List PyVal)
  | ptuple (xs : List PyVal)
  | pdict (entries : List (PyVal × PyVal))
  | npint (n : Int)
  | npfloat (f : PyFloat)
  | ndarray (xs : List PyVal)
  | dataframe (rows : List (List (String × PyVal)))
  | series (xs : List PyVal)
  | pother (s : String)
deriving Repr

mutual
/-- Approximate model of Python `str()` on a value (used for dict-key
and fallback stringification; the exact rendering is not load-bearing,
only that the result is a string). -/
def pyStr : PyVal → String
  | .pnone => "None"
  | .pbool b => if b then "True" else "False"
  | .pint n => toString n
  | .pfloat .nan => "nan"
  | .pfloat (.val q) => toString q
  | .pstr s => s
  | .plist xs => "[" ++ pyStrSep xs ++ "]"
  | .ptuple xs => "(" ++ pyStrSep xs ++ ")"
  | .pdict es => "\x7b" ++ pyStrEntries es ++ "\x7d"
  | .npint n => toString n
  | .npfloat .nan => "nan"
  | .npfloat (.val q) => toString q
  | .ndarray xs => "[" ++ pyStrSep xs ++ "]"
  | .dataframe _ => "DataFrame"
  | .series xs => "[" ++ pyStrSep xs ++ "]"
  | .pother s => s
/-- Comma-separated rendering of a value list. -/
def pyStrSep : List PyVal → String
  | [] => ""
  | [x] => pyStr x
  | x :: y :: xs => pyStr x ++ ", " ++ pyStrSep (y :: xs)
/-- Comma-separated rendering of dict entries. -/
def pyStrEntries : List (PyVal × PyVal) → String
  | [] => ""
  | [(k, v)] => pyStr k ++ ": " ++ pyStr v
  | (k, v) :: e :: es => pyStr k ++ ": " ++ pyStr v ++ ", " ++ pyStrEntries (e :: es)
end

mutual
/-- Numpy `tolist()` / pandas native-boxing on one element: numpy
scalars become Python numbers, nested arrays become lists, everything
else passes through unchanged (no deep conversion). -/
def npNative : PyVal → PyVal
  | .npint n => .pint n
  | .npfloat f => .pfloat f
  | .ndarray xs => .plist (npNativeList xs)
  | v => v
/-- `tolist()` mapped over array elements. -/
def npNativeList : List PyVal → List PyVal
  | [] => []
  | x :: xs => npNative x :: npNativeList xs
end

/-- One record of `DataFrame.to_dict("records")`: column names become
string keys, cells are boxed to native Python values. -/
def dfRecord (r : List (String × PyVal)) : PyVal :=
  .pdict (r.map (fun kv => (.pstr kv.1, npNative kv.2)))

/-- `DataFrame.to_dict("records")` over all rows. -/
def dfRecords (rows : List (List (String × PyVal))) : List PyVal :=
  rows.map dfRecord

/-- The dict-key conversion of `make_json_serializable` (lines 358-365):
tuple/list keys become their `str()`; keys that are `str`, `int`,
`float`, `bool` or `None` are kept as they are — and since `np.float64`
subclasses Python `float`, the `isinstance` test keeps numpy float keys
unconverted too (`np.int64` and `np.bool_` are not subclasses of
`int`/`bool`, so they fall through to `str()`); any other key becomes
its `str()`. -/
def keyConv (k : PyVal) : PyVal :=
  match k with
  | .ptuple _ => .pstr (pyStr k)
  | .plist _ => .pstr (pyStr k)
  | .pstr s => .pstr s
  | .pint n => .pint n
  | .pfloat f => .pfloat f
  | .npfloat f => .npfloat f
  | .pbool b => .pbool b
  | .pnone => .pnone
  | _ => .pstr (pyStr k)

mutual
/-- `make_json_serializable` (code_executor_service.py lines 352-388),
following the source's `elif` chain: dicts recurse with key conversion;
lists and tuples recurse into lists; numpy scalars become numbers;
`np.ndarray` returns `tolist()` without further recursion; DataFrames
return `to_dict("records")` without further recursion; Series return
`tolist()`; then `pd.isna` maps `None` and float NaN to `None`; the
remaining primitives pass through; anything else falls back to `str()`. -/
def mjs : PyVal → PyVal
  | .pdict es => .pdict (mjsEntries es)
  | .plist xs => .plist (mjsList xs)
  | .ptuple xs => .plist (mjsList xs)
  | .npint n => .pint n
  | .npfloat f => .pfloat f
  | .ndarray xs => .plist (npNativeList xs)
  | .dataframe rows => .plist (dfRecords rows)
  | .series xs => .plist (npNativeList xs)
  | .pnone => .pnone
  | .pfloat .nan => .pnone
  | .pfloat (.val q) => .pfloat (.val q)
  | .pstr s => .pstr s
  | .pint n => .pint n
  | .pbool b => .pbool b
  | .pother s => .pstr s
/-- `make_json_serializable` mapped over list elements. -/
def mjsList : List PyVal → List PyVal
  | [] => []
  | x :: xs => mjs x :: mjsList xs
/-- `make_json_serializable` over dict entries: converted key, recursed
value. -/
def mjsEntries : List (PyVal × PyVal) → List (PyVal × PyVal)
  | [] => []
  | (k, v) :: es => (keyConv k, mjs v) :: mjsEntries es
end

/-- Whether a value is a Python `str`. -/
def isStrVal : PyVal → Bool
  | .pstr _ => true
  | _ => false

mutual
/-- The JSON-round-trip-stable fragment: `json.dumps` followed by
`json.loads` yields an equal structure exactly for `None`, bools, ints,
non-NaN floats, strings, lists of stable values, and dicts whose keys
are strings and whose values are stable.  (Non-string primitive keys are
stringified by `json.dumps`; NaN re-parses to a NaN, which is unequal to
itself; other types either fail to serialize or change shape.) -/
def jstable : PyVal → Bool
  | .pnone => true
  | .pbool _ => true
  | .pint _ => true
  | .pfloat .nan => false
  | .pfloat (.val _) => true
  | .pstr _ => true
  | .plist xs => jstableList xs
  | .pdict es => jstableEntries es
  | _ => false
/-- Stability of every element of a list. -/
def jstableList : List PyVal → Bool
  | [] => true
  | x :: xs => jstable x && jstableList xs
/-- Stability of dict entries: string keys, stable values. -/
def jstableEntries : List (PyVal × PyVal) → Bool
  | [] => true
  | (k, v) :: es => isStrVal k && jstable v && jstableEntries es
end

mutual
/-- Values allowed inside an `np.ndarray` / `pd.Series` / DataFrame cell
for the round-trip guarantee: numeric numpy scalars (non-NaN), nested
arrays of such, and already-plain JSON primitives — because `tolist()`
and `to_dict` do not recurse into container elements. -/
def arrOk : PyVal → Bool
  | .pnone => true
  | .pbool _ => true
  | .pint _ => true
  | .pstr _ => true
  | .pfloat .nan => false
  | .pfloat (.val _) => true
  | .npint _ => true
  | .npfloat .nan => false
  | .npfloat (.val _) => true
  | .ndarray xs => arrOkList xs
  | _ => false
/-- `arrOk` over all elements. -/
def arrOkList : List PyVal → Bool
  | [] => true
  | x :: xs => arrOk x && arrOkList xs
end

/-- Every cell of a DataFrame row is array-safe. -/
def dfCellsOk (r : List (String × PyVal)) : Bool :=
  r.all (fun kv => arrOk kv.2)

/-- Every row of a DataFrame is cell-safe. -/
def dfRowsOk (rows : List (List (String × PyVal))) : Bool :=
  rows.all dfCellsOk

/-- Dict keys whose converted form is JSON-round-trip safe: everything
except `int`, `float` (including `np.float64`, a `float` subclass),
`bool`, and `None`, which `make_json_serializable` keeps unconverted. -/
def keyOk : PyVal → Bool
  | .pint _ => false
  | .pfloat _ => false
  | .npfloat _ => false
  | .pbool _ => false
  | .pnone => false
  | _ => true

mutual
/-- Input values whose `make_json_serializable` image round-trips
through JSON: primitives (NaN floats allowed at top level — they become
`None`), numpy scalars other than NaN, lists/tuples/dicts of such with
round-trip-safe keys, containers with array-safe elements, and arbitrary
other objects (stringified). -/
def plainVal : PyVal → Bool
  | .pnone => true
  | .pbool _ => true
  | .pint _ => true
  | .pfloat _ => true
  | .pstr _ => true
  | .npint _ => true
  | .npfloat .nan => false
  | .npfloat (.val _) => true
  | .plist xs => plainList xs
  | .ptuple xs => plainList xs
  | .pdict es => plainEntries es
  | .ndarray xs => arrOkList xs
  | .series xs => arrOkList xs
  | .dataframe rows => dfRowsOk rows
  | .pother _ => true
/-- `plainVal` over all list elements. -/
def plainList : List PyVal → Bool
  | [] => true
  | x :: xs => plainVal x && plainList xs
/-- `plainVal` over dict entries, requiring round-trip-safe keys. -/
def plainEntries : List (PyVal × PyVal) → Bool
  | [] => true
  | (k, v) :: es => keyOk k && plainVal v && plainEntries es
end

/-! ## Sandboxed executor (code_executor_service.py, `execute_python`) -/

/-- Python dict lookup by a string key (non-string keys never equal a
string). -/
def lookupKey : List (PyVal × PyVal) → String → Option PyVal
  | [], _ => none
  | (PyVal.pstr s, v) :: rest, k => if s = k then some v else lookupKey rest k
  | _ :: rest, k => lookupKey rest k

/-- `d.get(k)` with `None` default on a dict value; `None` on
anything else. -/
def getItem (v : PyVal) (k : String) : PyVal :=
  match v with
  | .pdict es => (lookupKey es k).getD .pnone
  | _ => .pnone

/-- Visualization record built by `extract_visualizations` for a
user-supplied `plot_base64` string (code_executor_service.py lines
321-326). -/
def vizEntry (b64 : String) : PyVal :=
  .pdict [(.pstr "type", .pstr "image"), (.pstr "format", .pstr "png"),
          (.pstr "data", .pstr b64)]

/-- Visualization record built by `extract_visualizations` for an open
matplotlib figure (lines 329-346): rendered to base64 with its figure
number. -/
def vizEntryFig (b64 : String) (n : Nat) : PyVal :=
  .pdict [(.pstr "type", .pstr "image"), (.pstr "format", .pstr "png"),
          (.pstr "data", .pstr b64), (.pstr "figure_num", .pint n)]

/-- `extract_visualizations(plt, plot_base64)`: the optional
`plot_base64` record (skipped when the string is falsy/empty) followed
by one record per open figure, in figure-number order.  `render n` is
the base64 PNG produced by saving figure `n`. -/
def extract_visualizations (render : Nat → String) (figs : List Nat)
    (plotBase64 : Option String) : List PyVal :=
  (match plotBase64 with
   | some b => if b ≠ "" then [vizEntry b] else []
   | none => []) ++ figs.map (fun n => vizEntryFig (render n) n)

/-- Timeout clamping of `execute_python` (lines 170-174): default 60
seconds, hard ceiling 120. -/
def effTimeout (t : Option Nat) : Nat :=
  let t0 := t.getD 60
  if t0 > 120 then 120 else t0

/-- Abstract behaviour of one generated-code block inside `exec`:
it terminates normally (leaving values in the `result`/`model`/
`plot_base64` slots and a set of open matplotlib figures), raises, or
exceeds the wall-clock alarm.  `figs` is the list of figure numbers the
code leaves open. -/
inductive CodeOutcome
  | ok (result : PyVal) (hasModel : Bool) (figs : List Nat)
      (plotBase64 : Option String)
  | raises (msg : String) (trace : String) (figs : List Nat)
  | hang (figs : List Nat)

/-- Observable outcome of `execute_python`: the returned dict, plus the
ambient matplotlib state (which figure numbers remain open) after the
call. -/
structure ExecOutput where
  ret : PyVal
  figsAfter : List Nat

/-- Python `bool(v)`: `some b` when the truthiness test succeeds,
`none` when it raises `ValueError`.  `pd.DataFrame.__bool__` and
`pd.Series.__bool__` raise unconditionally ("The truth value of a
DataFrame is ambiguous…"); `np.ndarray.__bool__` raises unless the
array has exactly one element, in which case it defers to that
element's truth value (size-0 arrays raise on current NumPy; on old
NumPy they were `False` under a `DeprecationWarning`).  Plain objects
without `__bool__`/`__len__` are truthy. -/
def pyTruthy : PyVal → Option Bool
  | .pnone => some false
  | .pbool b => some b
  | .pint n => some (decide (n ≠ 0))
  | .pfloat .nan => some true
  | .pfloat (.val q) => some (decide (q ≠ 0))
  | .pstr s => some (decide (s ≠ ""))
  | .plist xs => some (!xs.isEmpty)
  | .ptuple xs => some (!xs.isEmpty)
  | .pdict es => some (!es.isEmpty)
  | .npint n => some (decide (n ≠ 0))
  | .npfloat .nan => some true
  | .npfloat (.val q) => some (decide (q ≠ 0))
  | .ndarray [x] => pyTruthy x
  | .ndarray _ => none
  | .dataframe _ => none
  | .series _ => none
  | .pother _ => some true

/-- The `str(e)` of the `ValueError` raised by the truthiness test of a
pandas or multi-element-numpy result. -/
def truthinessErr : PyVal → String
  | .dataframe _ =>
    "The truth value of a DataFrame is ambiguous. Use a.empty, a.bool(), a.item(), a.any() or a.all()."
  | .series _ =>
    "The truth value of a Series is ambiguous. Use a.empty, a.bool(), a.item(), a.any() or a.all()."
  | _ =>
    "The truth value of an array with more than one element is ambiguous. Use a.any() or a.all()"

/-- The `traceback.format_exc()` captured for a truthiness
`ValueError` (the exact traceback text is abstracted to the exception
line). -/
def truthinessTrace (v : PyVal) : String :=
  "Traceback (most recent call last): ValueError: " ++ truthinessErr v

/-- The dict built by the generic `except Exception` branch
(code_executor_service.py lines 303-313). -/
def failedRet (msg trace : String) : PyVal :=
  .pdict [(.pstr "status", .pstr "FAILED"),
          (.pstr "error", .pstr msg),
          (.pstr "error_trace", .pstr trace),
          (.pstr "output", .pnone)]

/-- The dict built by the `except ExecutionTimeout` branch (lines
295-301). -/
def timeoutRet (t : Option Nat) : PyVal :=
  .pdict [(.pstr "status", .pstr "TIMEOUT"),
          (.pstr "error",
           .pstr ("Execution exceeded " ++ toString (effTimeout t)
             ++ " seconds")),
          (.pstr "output", .pnone)]

/-- The `visualizations` value of the success path (lines 268-275),
given the result's (non-raising) truth value `tv`: from the result dict
when `result` is truthy, a dict, and carries a `visualizations` key;
otherwise from `extract_visualizations`. -/
def successViz (render : Nat → String) (figs : List Nat)
    (plotB64 : Option String) (result : PyVal) (tv : Bool) : PyVal :=
  match result with
  | .pdict es =>
    if tv then
      match lookupKey es "visualizations" with
      | some w => w
      | none => .plist (extract_visualizations render figs plotB64)
    else .plist (extract_visualizations render figs plotB64)
  | _ => .plist (extract_visualizations render figs plotB64)

/-- The dict returned by the success path (lines 287-293): status
`SUCCESS`, the normalized result slot (untouched when `None`), the
visualizations, the model flag, and a `None` error. -/
def successRet (render : Nat → String) (figs : List Nat)
    (plotB64 : Option String) (result : PyVal) (tv : Bool)
    (hasModel : Bool) : PyVal :=
  .pdict [(.pstr "status", .pstr "SUCCESS"),
          (.pstr "output",
           match result with
           | .pnone => .pnone
           | r => mjs r),
          (.pstr "visualizations", successViz render figs plotB64 result tv),
          (.pstr "model", .pbool hasModel),
          (.pstr "error", .pnone)]

/-- `execute_python` (code_executor_service.py lines 258-313), given the
code's behaviour.  When the code terminates normally, the success path
first evaluates `if result and isinstance(result, dict) and
"visualizations" in result` (line 270): `bool(result)` raises
`ValueError` for a DataFrame, Series, or non-single-element ndarray
result, and that exception is caught by the generic `except` branch —
so such runs return a `FAILED` record with the figures left open and
`make_json_serializable` never applied.  When the truthiness test
yields a value, the visualizations are chosen, `plt.close("all")`
empties the open-figure set, and a non-`None` result slot is
normalized.  On `ExecutionTimeout` or an exception from the code
itself, the except branches build the failure dict and return without
touching matplotlib state. -/
def execute_python (render : Nat → String) (t : Option Nat)
    (beh : CodeOutcome) : ExecOutput :=
  match beh with
  | .ok result hasModel figs plotB64 =>
    match pyTruthy result with
    | some tv =>
      { ret := successRet render figs plotB64 result tv hasModel,
        figsAfter := [] }
    | none =>
      { ret := failedRet (truthinessErr result) (truthinessTrace result),
        figsAfter := figs }
  | .hang figs =>
    { ret := timeoutRet t, figsAfter := figs }
  | .raises msg trace figs =>
    { ret := failedRet msg trace, figsAfter := figs }

/-! ## Round-trip lemmas for `make_json_serializable` -/

mutual
/-- Array-safe elements stay round-trip stable through `tolist()`. -/
theorem arrOk_jstable : (v : PyVal) → arrOk v = true → jstable (npNative v) = true
  | .pnone, _ => rfl
  | .pbool _, _ => rfl
  | .pint _, _ => rfl
  | .pstr _, _ => rfl
  | .pfloat (.val _), _ => rfl
  | .pfloat .nan, h => by simp [arrOk] at h
  | .npint _, _ => rfl
  | .npfloat (.val _), _ => rfl
  | .npfloat .nan, h => by simp [arrOk] at h
  | .ndarray xs, h => by
      have hx : arrOkList xs = true := by simpa [arrOk] using h
      simpa [npNative, jstable] using arrOkList_jstable xs hx
  | .plist _, h => by simp [arrOk] at h
  | .ptuple _, h => by simp [arrOk] at h
  | .pdict _, h => by simp [arrOk] at h
  | .dataframe _, h => by simp [arrOk] at h
  | .series _, h => by simp [arrOk] at h
  | .pother _, h => by simp [arrOk] at h
/-- List version of `arrOk_jstable`. -/
theorem arrOkList_jstable : (xs : List PyVal) → arrOkList xs = true →
    jstableList (npNativeList xs) = true
  | [], _ => rfl
  | x :: xs, h => by
      have h1 : arrOk x = true ∧ arrOkList xs = true := by
        simpa [arrOkList, Bool.and_eq_true] using h
      simp [npNativeList, jstableList, arrOk_jstable x h1.1,
        arrOkList_jstable xs h1.2]
end

/-- A DataFrame row with array-safe cells yields round-trip-stable
record entries. -/
theorem dfCellsOk_jstable (r : List (String × PyVal)) (h : dfCellsOk r = true) :
    jstableEntries (r.map (fun kv => (PyVal.pstr kv.1, npNative kv.2))) = true := by
  induction r with
  | nil => rfl
  | cons kv rest ih =>
    have h1 : arrOk kv.2 = true ∧ dfCellsOk rest = true := by
      simpa [dfCellsOk, Bool.and_eq_true] using h
    simp [jstableEntries, isStrVal, arrOk_jstable kv.2 h1.1, ih h1.2]

/-- A DataFrame with array-safe cells yields a round-trip-stable record
list. -/
theorem dfRowsOk_jstable (rows : List (List (String × PyVal)))
    (h : dfRowsOk rows = true) : jstableList (dfRecords rows) = true := by
  induction rows with
  | nil => rfl
  | cons r rest ih =>
    have h1 : dfCellsOk r = true ∧ dfRowsOk rest = true := by
      simpa [dfRowsOk, Bool.and_eq_true] using h
    simp only [dfRecords, List.map_cons, jstableList]
    rw [Bool.and_eq_true]
    constructor
    · simpa [jstable, dfRecord] using dfCellsOk_jstable r h1.1
    · simpa [dfRecords] using ih h1.2

/-- Round-trip-safe keys convert to strings (or stay strings). -/
theorem keyOk_keyConv (k : PyVal) (h : keyOk k = true) :
    isStrVal (keyConv k) = true := by
  cases k <;> first | rfl | simp [keyOk] at h

mutual
/-- Main round-trip lemma: on the `plainVal` fragment,
`make_json_serializable` produces a JSON-round-trip-stable value. -/
theorem plainVal_jstable : (v : PyVal) → plainVal v = true →
    jstable (mjs v) = true
  | .pnone, _ => rfl
  | .pbool _, _ => rfl
  | .pint _, _ => rfl
  | .pfloat .nan, _ => rfl
  | .pfloat (.val _), _ => rfl
  | .pstr _, _ => rfl
  | .npint _, _ => rfl
  | .npfloat (.val _), _ => rfl
  | .npfloat .nan, h => by simp [plainVal] at h
  | .pother _, _ => rfl
  | .plist xs, h => by
      have hx : plainList xs = true := by simpa [plainVal] using h
      simpa [mjs, jstable] using plainList_jstable xs hx
  | .ptuple xs, h => by
      have hx : plainList xs = true := by simpa [plainVal] using h
      simpa [mjs, jstable] using plainList_jstable xs hx
  | .pdict es, h => by
      have hx : plainEntries es = true := by simpa [plainVal] using h
      simpa [mjs, jstable] using plainEntries_jstable es hx
  | .ndarray xs, h => by
      have hx : arrOkList xs = true := by simpa [plainVal] using h
      simpa [mjs, jstable] using arrOkList_jstable xs hx
  | .series xs, h => by
      have hx : arrOkList xs = true := by simpa [plainVal] using h
      simpa [mjs, jstable] using arrOkList_jstable xs hx
  | .dataframe rows, h => by
      have hx : dfRowsOk rows = true := by simpa [plainVal] using h
      simpa [mjs, jstable] using dfRowsOk_jstable rows hx
/-- List version of `plainVal_jstable`. -/
theorem plainList_jstable : (xs : List PyVal) → plainList xs = true →
    jstableList (mjsList xs) = true
  | [], _ => rfl
  | x :: xs, h => by
      have h1 : plainVal x = true ∧ plainList xs = true := by
        simpa [plainList, Bool.and_eq_true] using h
      simp [mjsList, jstableList, plainVal_jstable x h1.1,
        plainList_jstable xs h1.2]
/-- Entry version of `plainVal_jstable`: safe keys become string keys. -/
theorem plainEntries_jstable : (es : List (PyVal × PyVal)) →
    plainEntries es = true → jstableEntries (mjsEntries es) = true
  | [], _ => rfl
  | (k, v) :: es, h => by
      have h1 : keyOk k = true ∧ plainVal v = true ∧ plainEntries es = true := by
        simpa [plainEntries, Bool.and_eq_true, and_assoc] using h
      simp [mjsEntries, jstableEntries, keyOk_keyConv k h1.1,
        plainVal_jstable v h1.2.1, plainEntries_jstable es h1.2.2]
end

/-- Unfolding of `execute_python` on a normally-terminating code block
whose result passes the truthiness test. -/
theorem execute_python_ok_success (render : Nat → String) (t : Option Nat)
    (v : PyVal) (m : Bool) (figs : List Nat) (b64 : Option String)
    (tv : Bool) (h : pyTruthy v = some tv) :
    execute_python render t (.ok v m figs b64)
      = { ret := successRet render figs b64 v tv m, figsAfter := [] } := by
  simp only [execute_python, h]

/-- Unfolding of `execute_python` on a normally-terminating code block
whose result's truthiness test raises (DataFrame, Series, or
non-single-element ndarray): the generic except branch returns a
`FAILED` record and the figures stay open. -/
theorem execute_python_ok_truthiness (render : Nat → String) (t : Option Nat)
    (v : PyVal) (m : Bool) (figs : List Nat) (b64 : Option String)
    (h : pyTruthy v = none) :
    execute_python render t (.ok v m figs b64)
      = { ret := failedRet (truthinessErr v) (truthinessTrace v),
          figsAfter := figs } := by
  simp only [execute_python, h]

/-- The `output` entry of the success dict: the result slot, normalized
by `make_json_serializable` when it is not `None`. -/
theorem successRet_output (render : Nat → String) (figs : List Nat)
    (b64 : Option String) (v : PyVal) (tv : Bool) (m : Bool) :
    getItem (successRet render figs b64 v tv m) "output"
      = (match v with | PyVal.pnone => PyVal.pnone | r => mjs r) := rfl

/-- The `visualizations` entry of the success dict. -/
theorem successRet_viz (render : Nat → String) (figs : List Nat)
    (b64 : Option String) (v : PyVal) (tv : Bool) (m : Bool) :
    getItem (successRet render figs b64 v tv m) "visualizations"
      = successViz render figs b64 v tv := rfl

/-- Whether the result dict carries its own `visualizations` entry
(the `result and isinstance(result, dict) and "visualizations" in
result` test of code_executor_service.py line 270, for results whose
truthiness test does not raise). -/
def resultCarriesViz : PyVal → Bool
  | .pdict es => !es.isEmpty && (lookupKey es "visualizations").isSome
  | _ => false

/-- When the result does not carry its own `visualizations` entry, the
success path falls back to `extract_visualizations`. -/
theorem successViz_extract (render : Nat → String) (figs : List Nat)
    (b64 : Option String) (v : PyVal) (tv : Bool)
    (h : resultCarriesViz v = false) :
    successViz render figs b64 v tv
      = .plist (extract_visualizations render figs b64) := by
  cases v
  case pdict es =>
    unfold successViz
    by_cases he : es.isEmpty
    · have hes : es = [] := by
        cases es with
        | nil => rfl
        | cons a as => simp [List.isEmpty] at he
      subst hes
      cases tv <;> rfl
    · have hnone : lookupKey es "visualizations" = none := by
        simpa [resultCarriesViz, he, Option.isSome_iff_exists] using h
      cases tv <;> simp [hnone]
  all_goals rfl

/-- A value the generated code can legally deposit in the `result`
slot: a dict with an integer key. -/
def intKeyResult : PyVal := .pdict [(.pint 1, .pint 2)]

/-- A top-level one-row DataFrame deposited in the `result` slot. -/
def dfResult : PyVal := .dataframe [[("a", .npint 3)]]

/-- A concrete figure renderer for witnesses. -/
def render0 : Nat → String := fun n => "figure" ++ toString n

/-- C5 counterexample, two independent refutations.  First, for a
successful execution whose result is a dict with the integer key `1`,
`make_json_serializable` keeps the integer key (only tuple/list and
non-primitive keys are stringified), so the returned output slot is not
JSON-round-trip stable: `json.dumps` turns the key into `"1"` and
deserialization yields a different structure.  Second, a top-level
DataFrame result is never normalized to a list of record mappings: the
success path's truthiness test raises, so the call returns a `FAILED`
record with a `None` output slot. -/
theorem C5_counterexample :
    getItem (execute_python render0 none (.ok intKeyResult false [] none)).ret
        "output" = PyVal.pdict [(.pint 1, .pint 2)] ∧
    jstable (getItem (execute_python render0 none
      (.ok intKeyResult false [] none)).ret "output") = false ∧
    pyTruthy dfResult = none ∧
    getItem (execute_python render0 none (.ok dfResult false [] none)).ret
        "status" = .pstr "FAILED" ∧
    getItem (execute_python render0 none (.ok dfResult false [] none)).ret
        "output" = .pnone := by
  exact ⟨rfl, rfl, rfl, rfl, rfl⟩

/-- C5 (amended): `make_json_serializable` itself maps DataFrames to
record lists, numpy integer scalars to numbers, arrays to lists, plain
float NaN to null, and unrecognized objects to strings; but the
designated result slot only reaches it when the result survives the
success path's truthiness test — a top-level DataFrame, Series, or
non-single-element ndarray result instead yields a `FAILED` record
(itself JSON-serializable) with a `None` output.  For surviving results
in the `plainVal` fragment (no NaN numpy scalars, no
int/float/bool/None dict keys — numpy float keys included, since
`np.float64` subclasses `float` and is kept unconverted — and only
scalar-like elements inside arrays, Series, and DataFrame cells, since
`tolist()`/`to_dict` are not recursed into), the normalized output is
JSON-round-trip stable; runtime-failure and timeout records are always
JSON-round-trip serializable. -/
theorem C5_output_serializable (render : Nat → String) (t : Option Nat)
    (rows : List (List (String × PyVal))) (n : Int) (xs : List PyVal)
    (s : String) (v : PyVal) (m : Bool) (figs : List Nat)
    (b64 : Option String) (msg trace : String) :
    mjs (.dataframe rows) = .plist (dfRecords rows) ∧
    mjs (.npint n) = .pint n ∧
    mjs (.ndarray xs) = .plist (npNativeList xs) ∧
    mjs (.pfloat .nan) = .pnone ∧
    mjs (.pother s) = .pstr s ∧
    (∀ tv : Bool, pyTruthy v = some tv → plainVal v = true →
      jstable (getItem (execute_python render t (.ok v m figs b64)).ret
        "output") = true) ∧
    (pyTruthy v = none →
      getItem (execute_python render t (.ok v m figs b64)).ret "status"
          = .pstr "FAILED" ∧
      getItem (execute_python render t (.ok v m figs b64)).ret "output"
          = .pnone ∧
      jstable (execute_python render t (.ok v m figs b64)).ret = true) ∧
    jstable (execute_python render t (.raises msg trace figs)).ret = true ∧
    jstable (execute_python render t (.hang figs)).ret = true := by
  refine ⟨rfl, rfl, rfl, rfl, rfl, ?_, ?_, rfl, rfl⟩
  · intro tv htv hv
    rw [execute_python_ok_success render t v m figs b64 tv htv]
    show jstable (getItem (successRet render figs b64 v tv m) "output") = true
    rw [successRet_output]
    cases v
    case pnone => rfl
    all_goals exact plainVal_jstable _ hv
  · intro hn
    rw [execute_python_ok_truthiness render t v m figs b64 hn]
    exact ⟨rfl, rfl, rfl⟩

/-- Witness for the amended C5: a dict-wrapped one-row DataFrame result
survives the truthiness test and normalizes to a round-trip-stable
structure. -/
def nestedDfResult : PyVal :=
  .pdict [(.pstr "table", .dataframe [[("a", .npint 3)]])]

/-- Witness theorem for the amended C5, applying it at
`nestedDfResult`. -/
theorem C5_output_serializable_witness :
    pyTruthy nestedDfResult = some true ∧
    plainVal nestedDfResult = true ∧
    jstable (getItem (execute_python render0 none
      (.ok nestedDfResult false [] none)).ret "output") = true := by
  refine ⟨rfl, rfl, ?_⟩
  exact (C5_output_serializable render0 none [] 0 [] "s" nestedDfResult false
    [] none "m" "t").2.2.2.2.2.1 true rfl rfl

/-- C9 counterexample: an execution that raises or times out with
figure 1 still open returns with the figure still open — `plt.close` is
only reached on the success path — and its failure record carries no
visualization capture; the same happens for a normally-terminating code
block whose top-level DataFrame result makes the truthiness test
raise. -/
theorem C9_counterexample :
    (execute_python render0 none (.raises "boom" "tb" [1])).figsAfter = [1] ∧
    getItem (execute_python render0 none (.raises "boom" "tb" [1])).ret
        "visualizations" = .pnone ∧
    (execute_python render0 none (.hang [1])).figsAfter = [1] ∧
    (execute_python render0 none (.ok dfResult false [1] none)).figsAfter
        = [1] ∧
    getItem (execute_python render0 none (.ok dfResult false [1] none)).ret
        "status" = .pstr "FAILED" := by
  exact ⟨rfl, rfl, rfl, rfl, rfl⟩

/-- C9 (amended): figures are closed and captured only when the
execution completes normally and the result's truthiness test does not
raise: then all figures are closed (`plt.close("all")`) and every open
figure is captured as a base64 `image`/`png` artifact (with its figure
number) exactly when the result dict does not carry its own
`visualizations` entry.  When the truthiness test raises (top-level
DataFrame, Series, or non-single-element ndarray result), and on any
runtime failure or timeout, the open figures are neither captured nor
closed. -/
theorem C9_figures (render : Nat → String) (t : Option Nat)
    (v : PyVal) (m : Bool) (figs : List Nat) (b64 : Option String)
    (msg trace : String) :
    (∀ tv : Bool, pyTruthy v = some tv →
      (execute_python render t (.ok v m figs b64)).figsAfter = [] ∧
      (resultCarriesViz v = false →
        getItem (execute_python render t (.ok v m figs b64)).ret
            "visualizations"
          = .plist (extract_visualizations render figs b64))) ∧
    (pyTruthy v = none →
      (execute_python render t (.ok v m figs b64)).figsAfter = figs ∧
      getItem (execute_python render t (.ok v m figs b64)).ret
          "visualizations" = .pnone) ∧
    (∀ nfig, nfig ∈ figs →
      vizEntryFig (render nfig) nfig ∈ extract_visualizations render figs b64) ∧
    (execute_python render t (.raises msg trace figs)).figsAfter = figs ∧
    (execute_python render t (.hang figs)).figsAfter = figs := by
  refine ⟨?_, ?_, ?_, rfl, rfl⟩
  · intro tv htv
    rw [execute_python_ok_success render t v m figs b64 tv htv]
    refine ⟨rfl, ?_⟩
    intro hnc
    show getItem (successRet render figs b64 v tv m) "visualizations" = _
    rw [successRet_viz]
    exact successViz_extract render figs b64 v tv hnc
  · intro hn
    rw [execute_python_ok_truthiness render t v m figs b64 hn]
    exact ⟨rfl, rfl⟩
  · intro nfig hn
    unfold extract_visualizations
    exact List.mem_append_right _ (List.mem_map_of_mem _ hn)

/-- Witness for the amended C9: a successful run (result slot `None`)
that left figure 2 open returns with no open figures and with figure 2
captured. -/
theorem C9_figures_witness :
    (execute_python render0 none (CodeOutcome.ok .pnone false [2] none)).figsAfter
        = [] ∧
    getItem (execute_python render0 none
        (CodeOutcome.ok .pnone false [2] none)).ret "visualizations"
      = .plist (extract_visualizations render0 [2] none) ∧
    vizEntryFig (render0 2) 2 ∈ extract_visualizations render0 [2] none := by
  obtain ⟨h1, _, h3, _, _⟩ :=
    C9_figures render0 none .pnone false [2] none "m" "t"
  have h := h1 false rfl
  exact ⟨h.1, h.2 rfl, h3 2 (by simp)⟩

/-! ## Query dispatch and synthesis (deep_research_service.py) -/

/-- `SubQuestion` (deep_research_service.py lines 27-37).  The enum-like
fields are LLM-parsed strings in the source, so they are strings here. -/
structure SubQuestion where
  question : String
  intent_type : String
  desired_output : String
  priority : Int

/-- `ClassifiedQuestion` (lines 40-54). -/
structure ClassifiedQuestion where
  sub_question : SubQuestion
  category : String
  candidate_tables : List String
  candidate_columns : List String
  feasibility : String
  notes : String

/-- `AnalysisResult` (lines 57-71): unset fields default to `None`. -/
structure AnalysisResult where
  question : String
  method : String
  success : Bool
  data : Option PyVal := none
  visualization : Option PyVal := none
  error : Option String := none

/-- Outcome of the declarative path for one question: the SQL the
oracle generated plus the result table, or the exception message of
whatever step failed (`_execute_sql_query` wraps generation and
execution in one `try`). -/
inductive SqlOutcome
  | ok (sql : String) (rows : Nat) (preview : PyVal)
  | err (msg : String)

/-- Outcome of the generated-code path for one question: a completed
executor call with `SUCCESS` status (carrying the output and
visualizations fields), a completed call with non-success status
(carrying `exec_result.get("error")`), or an exception escaping
generation/execution. -/
inductive PyOutcome
  | ok (output : Option PyVal) (viz : Option PyVal)
  | fail (errMsg : Option String)
  | exn (msg : String)

/-- The code-generation mode chosen by `_execute_python_analysis`
(line 470): `stats` for trend analysis and forecasting, `python`
otherwise. -/
def pyMode (intent : String) : String :=
  if intent = "trend_analysis" ∨ intent = "forecasting" then "stats" else "python"

/-- `_execute_sql_query` (lines 428-458): success wraps the SQL, the
row count and a preview under `method="sql"`; any exception becomes a
failed result with `method="sql"` and the message. -/
def execute_sql_query (sqlEnv : String → SqlOutcome) (q : String) :
    AnalysisResult :=
  match sqlEnv q with
  | .ok sql rows preview =>
    { question := q, method := "sql", success := true,
      data := some (.pdict [(.pstr "sql", .pstr sql),
                            (.pstr "rows", .pint rows),
                            (.pstr "preview", preview)]) }
  | .err msg =>
    { question := q, method := "sql", success := false, error := some msg }

/-- `_execute_python_analysis` (lines 460-500): generates code in the
intent-dependent mode, executes it, and wraps the outcome under
`method="python"`. -/
def execute_python_analysis (pyEnv : String → String → PyOutcome)
    (q intent : String) : AnalysisResult :=
  match pyEnv q (pyMode intent) with
  | .ok output viz =>
    { question := q, method := "python", success := true,
      data := output, visualization := viz }
  | .fail msg =>
    { question := q, method := "python", success := false, error := msg }
  | .exn msg =>
    { question := q, method := "python", success := false, error := some msg }

/-- A dispatch to one of the two execution paths; each entry stands for
one oracle (code/SQL generation) call plus one engine/executor call. -/
inductive DispatchCall
  | sqlPath (q : String)
  | pythonPath (q : String) (mode : String)
deriving DecidableEq, Repr

/-- The intent types routed to generated-code execution
(`_execute_queries`, lines 394-396). -/
def pythonIntents : List String :=
  ["causal", "forecasting", "anomaly_detection", "trend_analysis"]

/-- Dispatch eligibility (line 392): category `data_backed` or `mixed`,
feasibility `high` or `medium`. -/
def eligible (cq : ClassifiedQuestion) : Bool :=
  (cq.category = "data_backed" || cq.category = "mixed") &&
  (cq.feasibility = "high" || cq.feasibility = "medium")

/-- The routing rule (lines 394-396): generated code exactly when
Python execution is enabled and the intent type is one of
`pythonIntents`. -/
def usePython (enablePython : Bool) (cq : ClassifiedQuestion) : Bool :=
  enablePython && pythonIntents.contains cq.sub_question.intent_type

/-- The pre-failed result appended for `insufficient_data` questions
(lines 419-424). -/
def insufficientResult (q : String) : AnalysisResult :=
  { question := q, method := "none", success := false,
    error := some "Insufficient data to answer this question" }

/-- `_execute_queries` (lines 382-426): eligible questions are
dispatched (Python or SQL by the routing rule) in input order;
`world_knowledge` questions are skipped; `insufficient_data` questions
contribute a pre-failed result with no dispatch; anything else (e.g.
low feasibility) is dropped.  Returns the result list together with the
dispatch calls made. -/
def execute_queries (sqlEnv : String → SqlOutcome)
    (pyEnv : String → String → PyOutcome) (enablePython : Bool) :
    List ClassifiedQuestion → List AnalysisResult × List DispatchCall
  | [] => ([], [])
  | cq :: rest =>
    let tail := execute_queries sqlEnv pyEnv enablePython rest
    if eligible cq then
      if usePython enablePython cq then
        (execute_python_analysis pyEnv cq.sub_question.question
            cq.sub_question.intent_type :: tail.1,
         DispatchCall.pythonPath cq.sub_question.question
            (pyMode cq.sub_question.intent_type) :: tail.2)
      else
        (execute_sql_query sqlEnv cq.sub_question.question :: tail.1,
         DispatchCall.sqlPath cq.sub_question.question :: tail.2)
    else if cq.category = "insufficient_data" then
      (insufficientResult cq.sub_question.question :: tail.1, tail.2)
    else
      tail

/-- One record of the `supporting_details` list built by
`_synthesize_insights` (lines 596-605). -/
structure SupportDetail where
  question : String
  method : String
  success : Bool
  data : Option PyVal
  error : Option String

/-- The record for one `AnalysisResult`: `data` only on success,
`error` only on failure. -/
def supportingDetail (r : AnalysisResult) : SupportDetail :=
  { question := r.question, method := r.method, success := r.success,
    data := if r.success then r.data else none,
    error := if r.success then none else r.error }

/-- The deterministic `supporting_details` construction of
`_synthesize_insights`: one record per `AnalysisResult`, in order. -/
def supporting_details (results : List AnalysisResult) : List SupportDetail :=
  results.map supportingDetail

/-- Both branches of the declarative path preserve the question text. -/
theorem execute_sql_query_question (sqlEnv : String → SqlOutcome) (q : String) :
    (execute_sql_query sqlEnv q).question = q := by
  unfold execute_sql_query
  cases sqlEnv q <;> rfl

/-- All branches of the generated-code path preserve the question
text. -/
theorem execute_python_analysis_question (pyEnv : String → String → PyOutcome)
    (q intent : String) :
    (execute_python_analysis pyEnv q intent).question = q := by
  unfold execute_python_analysis
  cases pyEnv q (pyMode intent) <;> rfl

/-- The questions of the produced results, in order, are exactly the
questions of the dispatched-or-insufficient classified questions, in
input order. -/
theorem execute_queries_questions (sqlEnv : String → SqlOutcome)
    (pyEnv : String → String → PyOutcome) (ep : Bool)
    (classified : List ClassifiedQuestion) :
    (execute_queries sqlEnv pyEnv ep classified).1.map (fun r => r.question)
      = (classified.filter (fun cq => eligible cq
          || cq.category = "insufficient_data")).map
          (fun cq => cq.sub_question.question) := by
  induction classified with
  | nil => rfl
  | cons cq rest ih =>
    by_cases he : eligible cq = true
    · by_cases hp : usePython ep cq = true
      · simp [execute_queries, he, hp, List.filter_cons,
          execute_python_analysis_question, ih]
      · simp only [Bool.not_eq_true] at hp
        simp [execute_queries, he, hp, List.filter_cons,
          execute_sql_query_question, ih]
    · simp only [Bool.not_eq_true] at he
      by_cases hi : cq.category = "insufficient_data"
      · simp [execute_queries, he, hi, List.filter_cons, insufficientResult, ih]
      · simp [execute_queries, he, hi, List.filter_cons, ih]

/-- C3: an eligible classified question (category `data_backed`/`mixed`,
feasibility `high`/`medium`) is dispatched to generated-code execution
exactly when Python execution is enabled and its intent type is in
`{causal, forecasting, anomaly_detection, trend_analysis}`; every other
eligible question — in particular any `descriptive` one — goes to the
declarative SQL path. -/
theorem C3_routing (sqlEnv : String → SqlOutcome)
    (pyEnv : String → String → PyOutcome) (ep : Bool)
    (cq : ClassifiedQuestion) (rest : List ClassifiedQuestion)
    (h : eligible cq = true) :
    usePython ep cq = (ep && pythonIntents.contains cq.sub_question.intent_type) ∧
    (usePython ep cq = true →
      execute_queries sqlEnv pyEnv ep (cq :: rest) =
        (execute_python_analysis pyEnv cq.sub_question.question
            cq.sub_question.intent_type
            :: (execute_queries sqlEnv pyEnv ep rest).1,
         DispatchCall.pythonPath cq.sub_question.question
            (pyMode cq.sub_question.intent_type)
            :: (execute_queries sqlEnv pyEnv ep rest).2)) ∧
    (usePython ep cq = false →
      execute_queries sqlEnv pyEnv ep (cq :: rest) =
        (execute_sql_query sqlEnv cq.sub_question.question
            :: (execute_queries sqlEnv pyEnv ep rest).1,
         DispatchCall.sqlPath cq.sub_question.question
            :: (execute_queries sqlEnv pyEnv ep rest).2)) ∧
    (cq.sub_question.intent_type = "descriptive" → usePython ep cq = false) := by
  refine ⟨rfl, ?_, ?_, ?_⟩
  · intro hp
    simp [execute_queries, h, hp]
  · intro hp
    simp [execute_queries, h, hp]
  · intro hd
    simp [usePython, pythonIntents, hd]

/-- Concrete dispatch environments for witnesses. -/
def sqlEnv0 : String → SqlOutcome := fun _ => .ok "SELECT 1" 1 (.plist [])

/-- Concrete generated-code environment for witnesses. -/
def pyEnv0 : String → String → PyOutcome := fun _ _ => .ok none none

/-- The spec scenario sub-question: descriptive revenue total. -/
def sqRevenue : SubQuestion :=
  { question := "What is total revenue?", intent_type := "descriptive",
    desired_output := "number", priority := 1 }

/-- The spec scenario question: descriptive, data-backed, high
feasibility. -/
def cqRevenue : ClassifiedQuestion :=
  { sub_question := sqRevenue,
    category := "data_backed", candidate_tables := ["dataset"],
    candidate_columns := ["revenue"], feasibility := "high", notes := "" }

/-- A sub-question whose answer is not in the dataset. -/
def sqMarketShare : SubQuestion :=
  { question := "What is the competitor market share?",
    intent_type := "descriptive", desired_output := "number",
    priority := 2 }

/-- A classified question with no supporting data. -/
def cqInsufficient : ClassifiedQuestion :=
  { sub_question := sqMarketShare,
    category := "insufficient_data", candidate_tables := [],
    candidate_columns := [], feasibility := "impossible", notes := "" }

/-- Witness for C3 at the spec scenario: the descriptive revenue
question routes to the declarative path and yields a successful
`method="sql"` result. -/
theorem C3_routing_witness :
    eligible cqRevenue = true ∧
    usePython true cqRevenue = false ∧
    execute_queries sqlEnv0 pyEnv0 true [cqRevenue] =
      ([execute_sql_query sqlEnv0 "What is total revenue?"],
       [DispatchCall.sqlPath "What is total revenue?"]) ∧
    (execute_sql_query sqlEnv0 "What is total revenue?").method = "sql" ∧
    (execute_sql_query sqlEnv0 "What is total revenue?").success = true := by
  have hroute := C3_routing sqlEnv0 pyEnv0 true cqRevenue [] (by decide)
  have hnp : usePython true cqRevenue = false := hroute.2.2.2 (by decide)
  exact ⟨by decide, hnp, hroute.2.2.1 hnp, rfl, rfl⟩

/-- C6: `supporting_details` holds exactly one record per
`AnalysisResult` — one per dispatched question plus one synthetic entry
per `insufficient_data` question, in input order — with `data` only on
success and `error` only on failure; nothing is dropped or reordered. -/
theorem C6_supporting_details (sqlEnv : String → SqlOutcome)
    (pyEnv : String → String → PyOutcome) (ep : Bool)
    (classified : List ClassifiedQuestion) :
    (supporting_details (execute_queries sqlEnv pyEnv ep classified).1).length
        = (execute_queries sqlEnv pyEnv ep classified).1.length ∧
    (execute_queries sqlEnv pyEnv ep classified).1.length
        = (classified.filter (fun cq => eligible cq
            || cq.category = "insufficient_data")).length ∧
    (execute_queries sqlEnv pyEnv ep classified).1.map (fun r => r.question)
        = (classified.filter (fun cq => eligible cq
            || cq.category = "insufficient_data")).map
            (fun cq => cq.sub_question.question) ∧
    (∀ (i : Nat) (r : AnalysisResult),
      (execute_queries sqlEnv pyEnv ep classified).1[i]? = some r →
      (supporting_details
          (execute_queries sqlEnv pyEnv ep classified).1)[i]?
        = some (supportingDetail r)) ∧
    (∀ d ∈ supporting_details (execute_queries sqlEnv pyEnv ep classified).1,
      (d.success = true → d.error = none) ∧
      (d.success = false → d.data = none)) := by
  have hq := execute_queries_questions sqlEnv pyEnv ep classified
  refine ⟨List.length_map _ _, ?_, hq, ?_, ?_⟩
  · calc (execute_queries sqlEnv pyEnv ep classified).1.length
        = ((execute_queries sqlEnv pyEnv ep classified).1.map
            (fun r => r.question)).length := (List.length_map _ _).symm
      _ = ((classified.filter (fun cq => eligible cq
            || cq.category = "insufficient_data")).map
            (fun cq => cq.sub_question.question)).length := by rw [hq]
      _ = (classified.filter (fun cq => eligible cq
            || cq.category = "insufficient_data")).length :=
          List.length_map _ _
  · intro i r hr
    unfold supporting_details
    rw [List.getElem?_map, hr]
    rfl
  · intro d hd
    obtain ⟨r, _, rfl⟩ := List.mem_map.mp hd
    cases hs : r.success <;> simp [supportingDetail, hs]

/-- Witness for C6 on a concrete classified list: one dispatched
question plus one insufficient-data question yield two supporting
records. -/
theorem C6_supporting_details_witness :
    (supporting_details
        (execute_queries sqlEnv0 pyEnv0 true [cqRevenue, cqInsufficient]).1).length
      = 2 := by
  have h := C6_supporting_details sqlEnv0 pyEnv0 true [cqRevenue, cqInsufficient]
  rw [h.1, h.2.1]
  decide

/-- C7: an `insufficient_data` question triggers no dispatch (no
oracle/executor call is recorded for it) and contributes the pre-failed
result with `method="none"`, `success=false`, and the fixed error
message. -/
theorem C7_insufficient_no_dispatch (sqlEnv : String → SqlOutcome)
    (pyEnv : String → String → PyOutcome) (ep : Bool)
    (cq : ClassifiedQuestion) (rest : List ClassifiedQuestion)
    (h : cq.category = "insufficient_data") :
    execute_queries sqlEnv pyEnv ep (cq :: rest) =
      (insufficientResult cq.sub_question.question
          :: (execute_queries sqlEnv pyEnv ep rest).1,
       (execute_queries sqlEnv pyEnv ep rest).2) ∧
    insufficientResult cq.sub_question.question =
      { question := cq.sub_question.question, method := "none",
        success := false, data := none, visualization := none,
        error := some "Insufficient data to answer this question" } ∧
    (execute_queries sqlEnv pyEnv ep (cq :: rest)).2 =
      (execute_queries sqlEnv pyEnv ep rest).2 := by
  have he : eligible cq = false := by simp [eligible, h]
  refine ⟨?_, rfl, ?_⟩
  · simp [execute_queries, he, h]
  · simp [execute_queries, he, h]

/-- Witness for C7: a concrete insufficient-data question produces only
the pre-failed result and an empty dispatch-call list. -/
theorem C7_insufficient_no_dispatch_witness :
    execute_queries sqlEnv0 pyEnv0 true [cqInsufficient] =
      ([insufficientResult "What is the competitor market share?"], []) := by
  simpa using (C7_insufficient_no_dispatch sqlEnv0 pyEnv0 true
    cqInsufficient [] (by decide)).1

/-! ## Async job lifecycle (deep_research.py `cancel_job`,
research_tasks.py `run_deep_research`) -/

/-- `ResearchJobStatus` (models/research_job.py). -/
inductive JobStatus
  | pending
  | running
  | completed
  | failed
  | cancelled
deriving DecidableEq, Repr

/-- The `ResearchJob` record fields the job endpoints and the worker
read and write.  Timestamps are integers (seconds); `execution_time_seconds`
is `completed_at - started_at` where computed. -/
structure ResearchJob where
  id : String
  celery_task_id : Option String
  status : JobStatus
  current_stage : Option String
  progress_percentage : Nat
  result : Option PyVal
  error_message : Option String
  started_at : Option Int
  completed_at : Option Int
  execution_time_seconds : Option Int

/-- Outcome of the cancellation endpoint: the `success` flag of the
response body, the job record after the call, and whether a Celery
revoke was attempted. -/
structure CancelOutcome where
  success : Bool
  job : ResearchJob
  revokeAttempted : Bool

/-- `cancel_job` (deep_research.py lines 1072-1120): terminal jobs
(`completed`/`failed`/`cancelled`) are refused with no mutation; a
`pending` or `running` job has its Celery task revoked (when a task id
is recorded), its status set to `cancelled`, `completed_at` set to now,
and `execution_time_seconds` computed only when `started_at` is set. -/
def cancel_job (now : Int) (job : ResearchJob) : CancelOutcome :=
  if job.status = .completed ∨ job.status = .failed ∨ job.status = .cancelled then
    { success := false, job := job, revokeAttempted := false }
  else
    { success := true,
      job := { job with
        status := .cancelled,
        completed_at := some now,
        execution_time_seconds :=
          match job.started_at with
          | some s => some (now - s)
          | none => job.execution_time_seconds },
      revokeAttempted := job.celery_task_id.isSome }

/-- C8: cancellation succeeds only from `pending` or `running`; terminal
jobs are refused with every field unchanged; cancelling a `pending` job
(no `started_at`) sets `status=cancelled` and `completed_at` while
`started_at` and `execution_time_seconds` stay unset; cancelling a
`running` job additionally sets `execution_time_seconds =
completed_at - started_at ≥ 0` (non-negative whenever the clock did not
go backwards). -/
theorem C8_cancel_transitions (now : Int) (job : ResearchJob) :
    ((job.status = .completed ∨ job.status = .failed ∨ job.status = .cancelled) →
      cancel_job now job =
        { success := false, job := job, revokeAttempted := false }) ∧
    (job.status = .pending → job.started_at = none →
      (cancel_job now job).success = true ∧
      (cancel_job now job).job.status = .cancelled ∧
      (cancel_job now job).job.completed_at = some now ∧
      (cancel_job now job).job.started_at = none ∧
      (cancel_job now job).job.execution_time_seconds
        = job.execution_time_seconds) ∧
    (∀ s : Int, job.status = .running → job.started_at = some s → s ≤ now →
      (cancel_job now job).success = true ∧
      (cancel_job now job).job.status = .cancelled ∧
      (cancel_job now job).job.completed_at = some now ∧
      (cancel_job now job).job.execution_time_seconds = some (now - s) ∧
      0 ≤ now - s) := by
  refine ⟨?_, ?_, ?_⟩
  · intro ht
    simp [cancel_job, ht]
  · intro hp hs
    have hnt : ¬(job.status = .completed ∨ job.status = .failed ∨
        job.status = .cancelled) := by
      simp [hp]
    simp [cancel_job, hnt, hs]
  · intro s hr hs hle
    have hnt : ¬(job.status = .completed ∨ job.status = .failed ∨
        job.status = .cancelled) := by
      simp [hr]
    simp [cancel_job, hnt, hs]
    omega

/-- A running job for the C8 witness. -/
def runningJob : ResearchJob :=
  { id := "job-1", celery_task_id := some "job-1",
    status := .running, current_stage := some "Stage 3/7: Executing queries",
    progress_percentage := 35, result := none, error_message := none,
    started_at := some 100, completed_at := none,
    execution_time_seconds := none }

/-- Witness for C8: cancelling the concrete running job at time 160
yields `cancelled` with `execution_time_seconds = 60 ≥ 0`. -/
theorem C8_cancel_transitions_witness :
    (cancel_job 160 runningJob).success = true ∧
    (cancel_job 160 runningJob).job.status = .cancelled ∧
    (cancel_job 160 runningJob).job.execution_time_seconds = some 60 := by
  have h := (C8_cancel_transitions 160 runningJob).2.2 100 rfl rfl (by omega)
  refine ⟨h.1, h.2.1, ?_⟩
  rw [h.2.2.2.1]
  norm_num

/-- The parameters of `DeepResearchService._decompose_question`
(deep_research_service.py lines 269-272), all required (no defaults):
the worker task must supply all three. -/
def decompose_params : List String := ["main_question", "schema", "max_count"]

/-- The arguments the Celery worker actually passes to
`_decompose_question` (research_tasks.py line 70). -/
def task_decompose_args : List String := ["main_question"]

/-- `CallbackTask.on_failure` (research_tasks.py lines 21-34): the job
found by `celery_task_id` is marked `failed` with the exception message,
`completed_at`, and `execution_time_seconds` when `started_at` is set. -/
def on_task_failure (failNow : Int) (excMsg : String) (job : ResearchJob) :
    ResearchJob :=
  { job with
    status := .failed,
    error_message := some excMsg,
    completed_at := some failNow,
    execution_time_seconds :=
      match job.started_at with
      | some s => some (failNow - s)
      | none => job.execution_time_seconds }

/-- `run_deep_research` (research_tasks.py lines 37-169): the worker
marks the job running (progress 5), advances to stage 1 (progress 10),
then calls `research_service._decompose_question(main_question)` —
supplying one of the three required positional arguments (and not
awaiting the coroutine), which raises `TypeError` before any further
stage; the exception propagates to `on_failure`, which marks the job
failed when its `celery_task_id` matches the task id.  (The later stage
calls `_classify_queries`, `_enrich_with_followups`,
`_synthesize_findings`, `_generate_additional_followups` name methods
that do not exist on `DeepResearchService`, so even a fixed stage 1
could not complete the pipeline.) -/
def run_deep_research_task (startNow failNow : Int) (taskId : String)
    (job : ResearchJob) : ResearchJob :=
  let job1 := { job with
    status := JobStatus.running, started_at := some startNow,
    current_stage := some "Initializing deep research...",
    progress_percentage := 5 }
  let job2 := { job1 with
    current_stage := some "Stage 1/7: Decomposing question",
    progress_percentage := 10 }
  if task_decompose_args.length < decompose_params.length then
    if job2.celery_task_id = some taskId then
      on_task_failure failNow
        "TypeError: _decompose_question missing 2 required positional arguments (schema, max_count)"
        job2
    else job2
  else job2

/-- C10: the worker task invokes the decomposition stage with one of its
three required arguments, so stage 1 always raises and the failure
callback marks the job `failed` (progress stuck at 10, never 100, never
`completed`) with `completed_at` set. -/
theorem C10_worker_always_fails (startNow failNow : Int) (taskId : String)
    (job : ResearchJob) (h : job.celery_task_id = some taskId) :
    task_decompose_args.length < decompose_params.length ∧
    (run_deep_research_task startNow failNow taskId job).status = .failed ∧
    (run_deep_research_task startNow failNow taskId job).status ≠ .completed ∧
    (run_deep_research_task startNow failNow taskId job).progress_percentage
      = 10 ∧
    (run_deep_research_task startNow failNow taskId job).progress_percentage
      ≠ 100 ∧
    (run_deep_research_task startNow failNow taskId job).completed_at
      = some failNow ∧
    (run_deep_research_task startNow failNow taskId job).started_at
      = some startNow := by
  refine ⟨by decide, ?_, ?_, ?_, ?_, ?_, ?_⟩ <;>
    simp [run_deep_research_task, on_task_failure, h, task_decompose_args,
      decompose_params]

/-- A freshly submitted job for the C10 witness (pending, task id equal
to the job id as set by the submission endpoint). -/
def pendingJob : ResearchJob :=
  { id := "job-2", celery_task_id := some "job-2",
    status := .pending, current_stage := none,
    progress_percentage := 0, result := none, error_message := none,
    started_at := none, completed_at := none,
    execution_time_seconds := none }

/-- Witness for C10: running the worker on the concrete pending job ends
in `failed` with progress 10. -/
theorem C10_worker_always_fails_witness :
    (run_deep_research_task 10 25 "job-2" pendingJob).status = .failed ∧
    (run_deep_research_task 10 25 "job-2" pendingJob).progress_percentage
      = 10 := by
  have h := C10_worker_always_fails 10 25 "job-2" pendingJob rfl
  exact ⟨h.2.1, h.2.2.2.1⟩

end Felix
